import Mathlib

/-
Verification of the container lifecycle and orchestration layer of the
kana-cli development-environment tool.

The Docker daemon is modelled as an explicit state (a list of containers
plus a fresh-id counter plus an event trace) together with an environment
value that decides which daemon calls fail and what data (exit codes, log
text, exec output) the daemon produces.  Each Go function of the engine
adapter (docker package) and of the site package is translated into a Lean
function over that state.  The HTTP readiness check is modelled over an
abstract poll function from attempt index to response.
-/

namespace Kana

/-- Result of an in-container exec session, mirroring docker.ExecResult. -/
structure ExecResult where
  StdOut : String
  StdErr : String
  ExitCode : Int
deriving Repr, DecidableEq

/-- A bind mount, mirroring the Source and Target of a mount.Mount value. -/
structure Mount where
  Source : String
  Target : String
deriving Repr, DecidableEq

/-- An exposed port, mirroring docker.ExposedPorts. -/
structure ExposedPorts where
  Port : String
  Protocol : String
deriving Repr, DecidableEq

/-- Declarative container specification, mirroring docker.ContainerConfig. -/
structure ContainerConfig where
  Name : String
  Image : String
  Ports : List ExposedPorts
  HostName : String
  NetworkName : String
  Volumes : List Mount
  Command : List String
  Env : List String
  Labels : List (String × String)
deriving Repr, DecidableEq

/-- Errors a modelled daemon call can produce. -/
inductive DockerErr where
  | listErr
  | createErr
  | nameConflict
  | startErr
  | stopErr
  | waitErr
  | logErr
  | removeErr
  | execCreateErr
  | execAttachErr
  | copyErr
  | execInspectErr
deriving Repr, DecidableEq

/-- A Go style (value, error) result: exactly one of the two is meaningful. -/
inductive GoRes (α : Type) where
  | ok (val : α)
  | err (e : DockerErr)
deriving Repr, DecidableEq

/-- Daemon-side record of one container. -/
structure Container where
  id : Nat
  name : String
  running : Bool
  labels : List (String × String)
  image : String
  command : List String
deriving Repr, DecidableEq

/-- Observable daemon events, used to state trace properties. -/
inductive DEvent where
  | created (id : Nat)
  | started (id : Nat)
  | stopped (id : Nat)
  | removed (id : Nat)
  | waited (id : Nat)
  | execCreated (id : Nat) (cmd : List String)
  | printedRemoveFailure (id : Nat)
deriving Repr, DecidableEq

/-- The state of the local container daemon. -/
structure DockerState where
  containers : List Container
  nextId : Nat
  events : List DEvent
deriving Repr, DecidableEq

/-- Environment describing which daemon calls fail and what data the daemon
returns: exit codes for waits, log text, and exec output per container id. -/
structure DaemonEnv where
  listFails : Bool
  createFails : Bool
  startFails : Bool
  stopFails : Bool
  waitFails : Bool
  logsFails : Bool
  removeFails : Bool
  execCreateFails : Bool
  execAttachFails : Bool
  copyFails : Bool
  execInspectFails : Bool
  waitResult : Nat → Int
  logsText : Nat → String
  execOutput : Nat → List String → ExecResult

/-- Label filter of a container list call, mirroring the filters.Args values
built in ListContainers: either a bare label key or an exact key=value pair. -/
inductive ListFilter where
  | noFilter
  | labelKey (k : String)
  | labelKV (k v : String)
deriving Repr, DecidableEq

/-- Mirrors strings.Trim(name, "/"): leading and trailing slashes removed,
computed on the character list of the string. -/
def goTrimSlashes (s : String) : String :=
  ⟨(((s.data.dropWhile (fun c => c == '/')).reverse.dropWhile
      (fun c => c == '/'))).reverse⟩

/-- Whether the first list is a prefix of the second, on characters. -/
def listPrefixOf : List Char → List Char → Bool
  | [], _ => true
  | _ :: _, [] => false
  | a :: as, b :: bs => a == b && listPrefixOf as bs

/-- Whether sub occurs contiguously inside the second list. -/
def listContainsSeq (sub : List Char) : List Char → Bool
  | [] => listPrefixOf sub []
  | c :: rest => listPrefixOf sub (c :: rest) || listContainsSeq sub rest

/-- Mirrors strings.Contains(s, sub): substring containment. -/
def goContains (s sub : String) : Bool :=
  listContainsSeq sub.data s.data

/-- Whether a container matches a list filter. -/
def matchesFilter (f : ListFilter) (c : Container) : Bool :=
  match f with
  | .noFilter => true
  | .labelKey k => c.labels.any (fun l => l.1 == k)
  | .labelKV k v => c.labels.any (fun l => l.1 == k && l.2 == v)

/-- Daemon primitive: ContainerList.  With all set only to running containers
are listed, and the optional label filter is applied, in daemon order. -/
def clientContainerList (env : DaemonEnv) (st : DockerState) (all : Bool)
    (f : ListFilter) : GoRes (List Container) :=
  if env.listFails then .err .listErr
  else .ok (st.containers.filter (fun c => (all || c.running) && matchesFilter f c))

/-- Daemon primitive: ContainerCreate.  Fails on daemon error or on a name
conflict with any existing container; otherwise records a new, not yet
running container under a fresh identifier. -/
def clientContainerCreate (env : DaemonEnv) (cfg : ContainerConfig)
    (st : DockerState) : GoRes Nat × DockerState :=
  if env.createFails then (.err .createErr, st)
  else if st.containers.any (fun c => c.name == cfg.Name) then
    (.err .nameConflict, st)
  else
    (.ok st.nextId,
      { containers := st.containers ++
          [{ id := st.nextId, name := cfg.Name, running := false,
             labels := cfg.Labels, image := cfg.Image, command := cfg.Command }],
        nextId := st.nextId + 1,
        events := st.events ++ [.created st.nextId] })

/-- Updates the running flag of the container with the given id. -/
def setRunning (id : Nat) (b : Bool) (cs : List Container) : List Container :=
  cs.map (fun c => if c.id == id then { c with running := b } else c)

/-- Daemon primitive: ContainerStart. -/
def clientContainerStart (env : DaemonEnv) (id : Nat) (st : DockerState) :
    GoRes Unit × DockerState :=
  if env.startFails then (.err .startErr, st)
  else (.ok (),
    { st with containers := setRunning id true st.containers,
              events := st.events ++ [.started id] })

/-- Daemon primitive: ContainerStop. -/
def clientContainerStop (env : DaemonEnv) (id : Nat) (st : DockerState) :
    GoRes Unit × DockerState :=
  if env.stopFails then (.err .stopErr, st)
  else (.ok (),
    { st with containers := setRunning id false st.containers,
              events := st.events ++ [.stopped id] })

/-- Daemon primitive: ContainerRemove. -/
def clientContainerRemove (env : DaemonEnv) (id : Nat) (st : DockerState) :
    GoRes Unit × DockerState :=
  if env.removeFails then (.err .removeErr, st)
  else (.ok (),
    { st with containers := st.containers.filter (fun c => !(c.id == id)),
              events := st.events ++ [.removed id] })

/-- First running-name match, mirroring the loop of IsContainerRunning over
the names the daemon reports (which carry a slash the Go code trims). -/
def firstNameMatch (name : String) : List Container → Option Nat
  | [] => none
  | c :: rest =>
    if name == goTrimSlashes c.name then some c.id else firstNameMatch name rest

/-- Mirrors DockerClient.IsContainerRunning: lists running containers (errors
are swallowed and reported as not running) and scans for an exact name match
after trimming slashes.  some id stands for (id, true), none for ("", false). -/
def IsContainerRunning (env : DaemonEnv) (st : DockerState) (containerName : String) :
    Option Nat :=
  match clientContainerList env st false .noFilter with
  | .err _ => none
  | .ok cs => firstNameMatch containerName cs

/-- Mirrors DockerClient.ListContainers: all containers (running or not)
carrying the kana.site ownership label, narrowed to one site when the site
argument is nonempty.  Returns the Go pair (ids, err). -/
def ListContainers (env : DaemonEnv) (st : DockerState) (site : String) :
    List Nat × Option DockerErr :=
  let f := if site.isEmpty then ListFilter.labelKey "kana.site"
           else ListFilter.labelKV "kana.site" site
  match clientContainerList env st true f with
  | .err e => ([], some e)
  | .ok cs => (cs.map (fun c => c.id), none)

/-- Mirrors DockerClient.ContainerRun: reuse a running container of the same
name, otherwise create and start one. -/
def ContainerRun (env : DaemonEnv) (cfg : ContainerConfig) (st : DockerState) :
    GoRes Nat × DockerState :=
  match IsContainerRunning env st cfg.Name with
  | some containerID => (.ok containerID, st)
  | none =>
    match clientContainerCreate env cfg st with
    | (.err e, st1) => (.err e, st1)
    | (.ok id, st1) =>
      match clientContainerStart env id st1 with
      | (.err e, st2) => (.err e, st2)
      | (.ok _, st2) => (.ok id, st2)

/-- Mirrors DockerClient.ContainerWait: blocks until exit, returning the
status code from the wait channel; the container is no longer running. -/
def ContainerWait (env : DaemonEnv) (id : Nat) (st : DockerState) :
    GoRes Int × DockerState :=
  if env.waitFails then (.err .waitErr, st)
  else (.ok (env.waitResult id),
    { st with containers := setRunning id false st.containers,
              events := st.events ++ [.waited id] })

/-- Mirrors DockerClient.ContainerLog: combined log text, or an error. -/
def ContainerLog (env : DaemonEnv) (id : Nat) : GoRes String :=
  if env.logsFails then .err .logErr else .ok (env.logsText id)

/-- The log text of ContainerRunAndClean: the fetched log, with a log-fetch
error discarded into the empty string, mirroring the ignored error of the
body assignment. -/
def logBodyOrEmpty (env : DaemonEnv) (id : Nat) : String :=
  match ContainerLog env id with
  | .err _ => ""
  | .ok b => b

/-- Mirrors DockerClient.ContainerRunAndClean: run, wait, fetch logs with the
error discarded, then remove; a removal failure is printed to the console and
also returned as the err value of the call. -/
def ContainerRunAndClean (env : DaemonEnv) (cfg : ContainerConfig)
    (st : DockerState) : (Int × String × Option DockerErr) × DockerState :=
  match ContainerRun env cfg st with
  | (.err e, st1) => ((0, "", some e), st1)
  | (.ok id, st1) =>
    match ContainerWait env id st1 with
    | (.err e, st2) => ((0, "", some e), st2)
    | (.ok statusCode, st2) =>
      let body := logBodyOrEmpty env id
      match clientContainerRemove env id st2 with
      | (.err e, st3) =>
        ((statusCode, body, some e),
          { st3 with events := st3.events ++ [.printedRemoveFailure id] })
      | (.ok _, st3) => ((statusCode, body, none), st3)

/-- Mirrors DockerClient.ContainerStop: no-op success when not running,
otherwise stop then remove. -/
def ContainerStop (env : DaemonEnv) (containerName : String) (st : DockerState) :
    GoRes Bool × DockerState :=
  match IsContainerRunning env st containerName with
  | none => (.ok true, st)
  | some id =>
    match clientContainerStop env id st with
    | (.err e, st1) => (.err e, st1)
    | (.ok _, st1) =>
      match clientContainerRemove env id st1 with
      | (.err e, st2) => (.err e, st2)
      | (.ok _, st2) => (.ok true, st2)

/-- Mirrors DockerClient.ContainerRestart: no-op success when not running,
otherwise stop then start in place. -/
def ContainerRestart (env : DaemonEnv) (containerName : String) (st : DockerState) :
    GoRes Bool × DockerState :=
  match IsContainerRunning env st containerName with
  | none => (.ok true, st)
  | some id =>
    match clientContainerStop env id st with
    | (.err e, st1) => (.err e, st1)
    | (.ok _, st1) =>
      match clientContainerStart env id st1 with
      | (.err e, st2) => (.err e, st2)
      | (.ok _, st2) => (.ok true, st2)

/-- Mirrors DockerClient.ContainerExec: an empty result and no error when the
target is not running; otherwise an exec session is created for the command
wrapped in a shell invocation, the output demultiplexed and the exit code
inspected, with every daemon failure along the way propagated. -/
def ContainerExec (env : DaemonEnv) (containerName : String)
    (command : List String) (st : DockerState) : GoRes ExecResult × DockerState :=
  match IsContainerRunning env st containerName with
  | none => (.ok { StdOut := "", StdErr := "", ExitCode := 0 }, st)
  | some id =>
    let fullCommand := ["sh", "-c"] ++ command
    if env.execCreateFails then (.err .execCreateErr, st)
    else
      let st1 := { st with events := st.events ++ [.execCreated id fullCommand] }
      if env.execAttachFails then (.err .execAttachErr, st1)
      else if env.copyFails then (.err .copyErr, st1)
      else if env.execInspectFails then (.err .execInspectErr, st1)
      else (.ok (env.execOutput id fullCommand), st1)

/-- Static per-invocation configuration, mirroring appConfig.StaticConfig as
used by the site package. -/
structure StaticConfigT where
  SiteName : String
  AppDomain : String
  AppDirectory : String
  SiteDirectory : String
  RootCert : String
  WorkingDirectory : String
deriving Repr, DecidableEq

/-- Modelled from the spec: the configuration provider (getSiteConfig and the
viper layers, outside the sources given here) supplies read-only values for
both the per-site configuration (SiteConfig) and the global dynamic
configuration (DynamicConfig).  The string and boolean lookups the site code
performs against the two layers are modelled as independent input fields;
nothing in the spec constrains the two php values to coincide. -/
structure SiteModel where
  StaticConfig : StaticConfigT
  phpSiteConfig : String
  phpDynamicConfig : String
  typeSiteConfig : String
  xdebugFlag : Bool
  runningLocal : Bool
  runningType : String
  pluginList : List String
deriving Repr, DecidableEq

/-- Mirrors Site.IsSiteRunning: lists containers labeled with the site name,
discards the error, and reports whether any were returned. -/
def IsSiteRunning (env : DaemonEnv) (s : SiteModel) (st : DockerState) : Bool :=
  let r := ListContainers env st s.StaticConfig.SiteName
  r.1.length != 0

/-- Database container specification built by Site.StartWordPress. -/
def databaseContainerConfig (s : SiteModel) (databaseDir : String) : ContainerConfig :=
  { Name := "kana_" ++ s.StaticConfig.SiteName ++ "_database"
    Image := "mariadb"
    Ports := []
    HostName := "kana_" ++ s.StaticConfig.SiteName ++ "_database"
    NetworkName := "kana"
    Volumes := [{ Source := databaseDir, Target := "/var/lib/mysql" }]
    Command := []
    Env := ["MARIADB_ROOT_PASSWORD=password", "MARIADB_DATABASE=wordpress",
            "MARIADB_USER=wordpress", "MARIADB_PASSWORD=wordpress"]
    Labels := [("kana.site", s.StaticConfig.SiteName)] }

/-- App container specification built by Site.StartWordPress; the image is
selected by the php value of the site configuration layer. -/
def wordPressContainerConfig (s : SiteModel) (appVolumes : List Mount) : ContainerConfig :=
  { Name := "kana_" ++ s.StaticConfig.SiteName ++ "_wordpress"
    Image := "wordpress:php" ++ s.phpSiteConfig
    Ports := []
    HostName := "kana_" ++ s.StaticConfig.SiteName ++ "_wordpress"
    NetworkName := "kana"
    Volumes := appVolumes
    Command := []
    Env := ["WORDPRESS_DB_HOST=kana_" ++ s.StaticConfig.SiteName ++ "_database",
            "WORDPRESS_DB_USER=wordpress", "WORDPRESS_DB_PASSWORD=wordpress",
            "WORDPRESS_DB_NAME=wordpress"]
    Labels :=
      [("traefik.enable", "true"),
       ("traefik.http.routers.wordpress-" ++ s.StaticConfig.SiteName ++ "-http.entrypoints",
        "web"),
       ("traefik.http.routers.wordpress-" ++ s.StaticConfig.SiteName ++ "-http.rule",
        "Host(\x60" ++ s.StaticConfig.SiteName ++ "." ++ s.StaticConfig.AppDomain ++ "\x60)"),
       ("traefik.http.routers.wordpress-" ++ s.StaticConfig.SiteName ++ ".entrypoints",
        "websecure"),
       ("traefik.http.routers.wordpress-" ++ s.StaticConfig.SiteName ++ ".rule",
        "Host(\x60" ++ s.StaticConfig.SiteName ++ "." ++ s.StaticConfig.AppDomain ++ "\x60)"),
       ("traefik.http.routers.wordpress-" ++ s.StaticConfig.SiteName ++ ".tls", "true"),
       ("kana.site", s.StaticConfig.SiteName)] }

/-- One-shot CLI container specification built by Site.RunWPCli; the image is
the cli variant selected by the php value of the dynamic configuration layer,
and the command is the caller arguments behind the fixed wp invocation. -/
def wpCliContainerConfig (s : SiteModel) (command : List String)
    (appVolumes : List Mount) : ContainerConfig :=
  { Name := "kana_" ++ s.StaticConfig.SiteName ++ "_wordpress_cli"
    Image := "wordpress:cli-php" ++ s.phpDynamicConfig
    Ports := []
    HostName := "kana_" ++ s.StaticConfig.SiteName ++ "_wordpress_cli"
    NetworkName := "kana"
    Volumes := appVolumes
    Command := ["wp", "--path=/var/www/html"] ++ command
    Env := ["WORDPRESS_DB_HOST=kana_" ++ s.StaticConfig.SiteName ++ "_database",
            "WORDPRESS_DB_USER=wordpress", "WORDPRESS_DB_PASSWORD=wordpress",
            "WORDPRESS_DB_NAME=wordpress"]
    Labels := [("kana.site", s.StaticConfig.SiteName)] }

/-- Mirrors Site.runCli: exec the single command against the app container,
then optionally restart that container, returning the exec output together
with any error of the exec or of the restart. -/
def runCli (env : DaemonEnv) (s : SiteModel) (command : String) (restart : Bool)
    (st : DockerState) : (ExecResult × Option DockerErr) × DockerState :=
  let container := "kana_" ++ s.StaticConfig.SiteName ++ "_wordpress"
  match ContainerExec env container [command] st with
  | (.err e, st1) => (({ StdOut := "", StdErr := "", ExitCode := 0 }, some e), st1)
  | (.ok output, st1) =>
    if restart then
      match ContainerRestart env container st1 with
      | (.err e, st2) => ((output, some e), st2)
      | (.ok _, st2) => ((output, none), st2)
    else ((output, none), st1)

/-- The fixed command sequence of Site.InstallXdebug. -/
def xdebugCommands : List String :=
  ["pecl list | grep xdebug",
   "pecl install xdebug",
   "docker-php-ext-enable xdebug",
   "echo \x27xdebug.start_with_request=yes\x27 >> /usr/local/etc/php/php.ini",
   "echo \x27xdebug.mode=debug\x27 >> /usr/local/etc/php/php.ini",
   "echo \x27xdebug.client_host=host.docker.internal\x27 >> /usr/local/etc/php/php.ini",
   "echo \x27xdebug.discover_client_host=on\x27 >> /usr/local/etc/php/php.ini",
   "echo \x27xdebug.start_with_request=trigger\x27 >> /usr/local/etc/php/php.ini"]

/-- The loop body of Site.InstallXdebug: each command runs through runCli with
the restart flag set exactly on the final command; an error aborts, and after
the first command a stdout already containing xdebug short-circuits. -/
def installXdebugLoop (env : DaemonEnv) (s : SiteModel) :
    List String → Nat → DockerState → (Bool × Option DockerErr) × DockerState
  | [], _, st => ((true, none), st)
  | command :: rest, i, st =>
    let restart := rest.isEmpty
    match runCli env s command restart st with
    | ((_, some e), st1) => ((false, some e), st1)
    | ((output, none), st1) =>
      if i == 0 && goContains output.StdOut "xdebug" then ((false, none), st1)
      else installXdebugLoop env s rest (i + 1) st1

/-- Mirrors Site.InstallXdebug: no-op when the xdebug flag is unset, otherwise
the fixed command sequence. -/
def InstallXdebug (env : DaemonEnv) (s : SiteModel) (st : DockerState) :
    (Bool × Option DockerErr) × DockerState :=
  if !s.xdebugFlag then ((false, none), st)
  else installXdebugLoop env s xdebugCommands 0 st

/-- One parsed entry of the plugin listing, mirroring site.PluginInfo. -/
structure PluginInfo where
  name : String
  status : String
  update : String
  version : String
deriving Repr, DecidableEq

/-- The filtering loop of Site.GetInstalledWordPressPlugins over the parsed
plugin list: dropin entries and the three built-in names are skipped, every
other name is appended in order. -/
def pluginListFilterGo (siteName : String) : List PluginInfo → List String
  | [] => []
  | p :: rest =>
    if p.status != "dropin" && p.name != siteName && p.name != "hello"
        && p.name != "akismet" then
      p.name :: pluginListFilterGo siteName rest
    else pluginListFilterGo siteName rest

/-- Outcome of one HTTP poll of the secure URL. -/
inductive HttpResp where
  | transportErr
  | status (code : Nat)
deriving Repr, DecidableEq

/-- The TLS client configuration VerifySite builds: peer verification is
disabled and no root certificate pool is attached. -/
structure TLSClientConfig where
  insecureSkipVerify : Bool
  rootCAs : Option (List String)
deriving Repr, DecidableEq

/-- The kinds of failure VerifySite can report. -/
inductive VerifyErrorK where
  | certRead
  | transport
  | timeout
  | outOfFuel
deriving Repr, DecidableEq

/-- Instrumented outcome of a VerifySite call: the returned pair together
with the number of HTTP requests issued, the number of one second sleeps,
and the TLS client configuration that was built, when one was. -/
structure VerifyOut where
  ok : Bool
  err : Option VerifyErrorK
  gets : Nat
  sleeps : Nat
  client : Option TLSClientConfig
deriving Repr, DecidableEq

/-- The retry loop of Site.VerifySite, entered when the first response was not
status 200.  Each iteration issues one request; a transport error aborts, a
200 succeeds, a tries counter already at 30 times out, and otherwise the
counter is bumped and one second is slept.  The fuel argument only encodes
that the counter makes the loop finite; from the entry value 31 it is never
exhausted. -/
def verifyLoop (poll : Nat → HttpResp) (client : TLSClientConfig) :
    Nat → Nat → Nat → Nat → Nat → VerifyOut
  | 0, _, _, gets, sleeps =>
    { ok := false, err := some .outOfFuel, gets := gets, sleeps := sleeps,
      client := some client }
  | fuel + 1, n, tries, gets, sleeps =>
    match poll n with
    | .transportErr =>
      { ok := false, err := some .transport, gets := gets + 1, sleeps := sleeps,
        client := some client }
    | .status code =>
      if code == 200 then
        { ok := true, err := none, gets := gets + 1, sleeps := sleeps,
          client := some client }
      else if tries == 30 then
        { ok := false, err := some .timeout, gets := gets + 1, sleeps := sleeps,
          client := some client }
      else verifyLoop poll client fuel (n + 1) (tries + 1) (gets + 1) (sleeps + 1)

/-- Mirrors Site.VerifySite: read the root certificate (failure is returned
before any request is issued), build an HTTP client that skips TLS peer
verification and never attaches the certificate pool just loaded, issue a
first request, and on a non-200 status enter the retry loop. -/
def VerifySiteModel (certRead : Option String) (poll : Nat → HttpResp) : VerifyOut :=
  match certRead with
  | none =>
    { ok := false, err := some .certRead, gets := 0, sleeps := 0, client := none }
  | some _caCert =>
    let client : TLSClientConfig := { insecureSkipVerify := true, rootCAs := none }
    match poll 0 with
    | .transportErr =>
      { ok := false, err := some .transport, gets := 1, sleeps := 0,
        client := some client }
    | .status code =>
      if code != 200 then verifyLoop poll client 31 1 0 1 0
      else { ok := true, err := none, gets := 1, sleeps := 0, client := some client }

/-- Number of containers in the daemon state carrying exactly this name. -/
def countByName (st : DockerState) (name : String) : Nat :=
  (st.containers.filter (fun c => c.name == name)).length

/-- Well-formed daemon state: the fresh-id counter is above every id in use. -/
def WFState (st : DockerState) : Prop :=
  ∀ c ∈ st.containers, c.id < st.nextId

/-- Count of exec sessions created in an event list. -/
def countExecCreated (evs : List DEvent) : Nat :=
  (evs.filter (fun e => match e with | .execCreated _ _ => true | _ => false)).length

/-- A daemon environment in which no call fails and all data oracles return
zero values. -/
def quietEnv : DaemonEnv :=
  { listFails := false, createFails := false, startFails := false,
    stopFails := false, waitFails := false, logsFails := false,
    removeFails := false, execCreateFails := false, execAttachFails := false,
    copyFails := false, execInspectFails := false,
    waitResult := fun _ => 0, logsText := fun _ => "",
    execOutput := fun _ _ => { StdOut := "", StdErr := "", ExitCode := 0 } }

/-- The empty daemon state. -/
def emptyState : DockerState := { containers := [], nextId := 0, events := [] }

/-- A concrete one-shot CLI specification used to instantiate theorems. -/
def cliCfg : ContainerConfig :=
  { Name := "kana_demo_wordpress_cli", Image := "wordpress:cli-php7.4", Ports := [],
    HostName := "kana_demo_wordpress_cli", NetworkName := "kana", Volumes := [],
    Command := ["wp", "--path=/var/www/html", "plugin", "list"],
    Env := [], Labels := [("kana.site", "demo")] }

/-- A concrete running app container used to instantiate theorems. -/
def demoWpContainer : Container :=
  { id := 7, name := "kana_demo_wordpress", running := true,
    labels := [("kana.site", "demo")], image := "wordpress:php7.4", command := [] }

/-- A concrete daemon state holding the running demo app container. -/
def demoState : DockerState :=
  { containers := [demoWpContainer], nextId := 8, events := [] }

/-- A concrete static configuration for the demo site. -/
def demoStatic : StaticConfigT :=
  { SiteName := "demo", AppDomain := "sites.kana.li", AppDirectory := "/app",
    SiteDirectory := "/app/sites/demo", RootCert := "kana.root.pem",
    WorkingDirectory := "/work" }

/-- A concrete site whose two configuration layers disagree on php. -/
def demoSite : SiteModel :=
  { StaticConfig := demoStatic,
    phpSiteConfig := "8.0", phpDynamicConfig := "7.4", typeSiteConfig := "site",
    xdebugFlag := true, runningLocal := false, runningType := "site",
    pluginList := [] }

/-- A concrete site whose two configuration layers agree on php. -/
def demoSiteAgreeing : SiteModel :=
  { demoSite with phpSiteConfig := "7.4", phpDynamicConfig := "7.4" }

/-- The container created by running cliCfg against the empty daemon. -/
def cliCreatedContainer : Container :=
  { id := 0, name := "kana_demo_wordpress_cli", running := true,
    labels := [("kana.site", "demo")], image := "wordpress:cli-php7.4",
    command := ["wp", "--path=/var/www/html", "plugin", "list"] }

/-- The daemon state reached by running cliCfg against the empty daemon. -/
def cliRunState : DockerState :=
  { containers := [cliCreatedContainer], nextId := 1,
    events := [.created 0, .started 0] }

/-- The exec session events for a command sequence against one container. -/
def execEvents (id : Nat) (cmds : List String) : List DEvent :=
  cmds.map (fun c => .execCreated id ["sh", "-c", c])

/-- An environment in which only container removal fails. -/
def removeFailEnv : DaemonEnv :=
  { quietEnv with removeFails := true, logsText := fun _ => "log output" }

/-- An environment in which only the log fetch fails. -/
def logFailEnv : DaemonEnv := { quietEnv with logsFails := true }

/-- An environment whose exec sessions report that xdebug is installed. -/
def xdebugPresentEnv : DaemonEnv :=
  { quietEnv with
    execOutput := fun _ _ => { StdOut := "xdebug 3.1", StdErr := "", ExitCode := 0 } }

end Kana

namespace Kana

theorem firstNameMatch_eq_none_iff (n : String) (l : List Container) :
    firstNameMatch n l = none ↔ ∀ c ∈ l, n ≠ goTrimSlashes c.name := by
  induction l with
  | nil => simp [firstNameMatch]
  | cons c rest ih =>
    by_cases hc : n = goTrimSlashes c.name
    · simp [firstNameMatch, hc]
    · simp [firstNameMatch, hc, ih]

theorem firstNameMatch_some_mem (n : String) (l : List Container) (i : Nat)
    (h : firstNameMatch n l = some i) :
    ∃ c ∈ l, n = goTrimSlashes c.name ∧ c.id = i := by
  induction l with
  | nil => simp [firstNameMatch] at h
  | cons c rest ih =>
    by_cases hc : n = goTrimSlashes c.name
    · subst hc
      simp only [firstNameMatch, beq_self_eq_true, if_true] at h
      exact ⟨c, by simp, rfl, Option.some.inj h⟩
    · have hb : (n == goTrimSlashes c.name) = false := by simp [hc]
      simp only [firstNameMatch, hb] at h
      simp only [Bool.false_eq_true, if_false] at h
      rcases ih h with ⟨d, hd, h1, h2⟩
      exact ⟨d, List.mem_cons.mpr (Or.inr hd), h1, h2⟩

theorem firstNameMatch_append_none (n : String) (l1 l2 : List Container)
    (h : firstNameMatch n l1 = none) :
    firstNameMatch n (l1 ++ l2) = firstNameMatch n l2 := by
  induction l1 with
  | nil => simp
  | cons c rest ih =>
    by_cases hc : n = goTrimSlashes c.name
    · simp [firstNameMatch, hc] at h
    · simp only [List.cons_append, firstNameMatch]
      have hb : (n == goTrimSlashes c.name) = false := by simp [hc]
      simp only [firstNameMatch, hb] at h
      simp only [Bool.false_eq_true, if_false] at h
      simp only [hb, Bool.false_eq_true, if_false]
      exact ih h

theorem setRunning_eq_of_not_mem (id : Nat) (b : Bool) (cs : List Container)
    (h : ∀ c ∈ cs, c.id ≠ id) : setRunning id b cs = cs := by
  induction cs with
  | nil => rfl
  | cons c rest ih =>
    have h1 : c.id ≠ id := h c (by simp)
    have h2 := ih (fun d hd => h d (by simp [hd]))
    simp only [setRunning, List.map_cons] at h2 ⊢
    simp only [h1, if_neg, beq_iff_eq, if_false]
    simp [h1]
    simpa using h2

theorem isContainerRunning_eq (env : DaemonEnv) (st : DockerState) (n : String)
    (hlist : env.listFails = false) :
    IsContainerRunning env st n =
      firstNameMatch n (st.containers.filter (fun c => c.running)) := by
  unfold IsContainerRunning clientContainerList
  rw [hlist]
  simp [matchesFilter]

theorem goPluginCond_eq (siteName : String) (p : PluginInfo) :
    (p.status != "dropin" && p.name != siteName && p.name != "hello"
      && p.name != "akismet")
    = decide (p.status ≠ "dropin" ∧ p.name ≠ siteName ∧ p.name ≠ "hello"
      ∧ p.name ≠ "akismet") := by
  by_cases h1 : p.status = "dropin" <;> by_cases h2 : p.name = siteName <;>
    by_cases h3 : p.name = "hello" <;> by_cases h4 : p.name = "akismet" <;>
    simp [h1, h2, h3, h4]

/-- C7: over any parsed raw plugin list, the filtering loop of
GetInstalledWordPressPlugins returns exactly the names of the entries whose
status is not dropin and whose name is neither the site slug nor hello nor
akismet, in their original relative order: it equals a filter of the list
followed by taking names. -/
theorem claim_C7_plugin_filter (siteName : String) (raw : List PluginInfo) :
    pluginListFilterGo siteName raw =
      (raw.filter (fun p => decide (p.status ≠ "dropin" ∧ p.name ≠ siteName ∧
        p.name ≠ "hello" ∧ p.name ≠ "akismet"))).map (fun p => p.name) := by
  induction raw with
  | nil => rfl
  | cons p rest ih =>
    simp only [pluginListFilterGo, List.filter_cons, goPluginCond_eq]
    cases hd : decide (p.status ≠ "dropin" ∧ p.name ≠ siteName ∧ p.name ≠ "hello"
        ∧ p.name ≠ "akismet") with
    | false => simp [hd, ih]
    | true => simp [hd, ih]

/-- C8: exec against a container name that is not currently running returns an
empty result (empty stdout, empty stderr, exit code zero) and no error, and
leaves the daemon state unchanged, so no exec session is created. -/
theorem claim_C8_exec_not_running (env : DaemonEnv) (st : DockerState)
    (name : String) (cmd : List String)
    (h : ∀ c ∈ st.containers, c.running = true → goTrimSlashes c.name ≠ name) :
    ContainerExec env name cmd st =
      (.ok { StdOut := "", StdErr := "", ExitCode := 0 }, st) := by
  have hrc : IsContainerRunning env st name = none := by
    cases hf : env.listFails with
    | true => unfold IsContainerRunning clientContainerList; simp [hf]
    | false =>
      rw [isContainerRunning_eq env st name hf, firstNameMatch_eq_none_iff]
      intro c hcmem
      rw [List.mem_filter] at hcmem
      intro he
      exact h c hcmem.1 hcmem.2 he.symm
  unfold ContainerExec
  rw [hrc]

/-- Witness for C8 at a state holding a running container of another name. -/
theorem claim_C8_exec_not_running_witness :
    ContainerExec quietEnv "kana_other_wordpress" ["ls"] demoState =
      (.ok { StdOut := "", StdErr := "", ExitCode := 0 }, demoState) :=
  claim_C8_exec_not_running quietEnv demoState "kana_other_wordpress" ["ls"]
    (by decide)

/-- C10: when the daemon listing succeeds, IsSiteRunning is true exactly when
some container, running or stopped, carries the label kana.site with the site
name as value; when the listing fails, IsSiteRunning is false rather than an
error. -/
theorem claim_C10_is_site_running (env : DaemonEnv) (s : SiteModel)
    (st : DockerState) (hname : s.StaticConfig.SiteName.isEmpty = false) :
    (env.listFails = false →
      (IsSiteRunning env s st = true ↔
        ∃ c ∈ st.containers, ("kana.site", s.StaticConfig.SiteName) ∈ c.labels))
    ∧ (env.listFails = true → IsSiteRunning env s st = false) := by
  constructor
  · intro hl
    unfold IsSiteRunning ListContainers clientContainerList
    simp only [hname, hl, Bool.false_eq_true, if_false]
    simp [matchesFilter, List.filter_eq_nil_iff, Prod.ext_iff]
  · intro hl
    unfold IsSiteRunning ListContainers clientContainerList
    simp [hname, hl]

/-- Witness for C10: the demo state holds a labeled container, so the site
counts as running; with a failing daemon listing the same call reports false. -/
theorem claim_C10_is_site_running_witness :
    IsSiteRunning quietEnv demoSite demoState = true ∧
    IsSiteRunning { quietEnv with listFails := true } demoSite demoState = false := by
  constructor
  · exact ((claim_C10_is_site_running quietEnv demoSite demoState (by decide)).1
      rfl).mpr ⟨demoWpContainer, by simp [demoState], by decide⟩
  · exact (claim_C10_is_site_running { quietEnv with listFails := true } demoSite
      demoState (by decide)).2 rfl

/-- C1: a successful run call is idempotent.  When a second run with the same
specification follows a successful one (and the daemon listing works), it
returns the same container identifier and leaves the daemon state untouched;
when a running container of the name already existed its identifier was
returned without any state change; and when no container of the name existed
beforehand, exactly one container was created across both calls. -/
theorem claim_C1_run_idempotent (env : DaemonEnv) (cfg : ContainerConfig)
    (st st1 : DockerState) (id : Nat)
    (hlist : env.listFails = false)
    (hname : goTrimSlashes cfg.Name = cfg.Name)
    (hwf : WFState st)
    (h : ContainerRun env cfg st = (.ok id, st1)) :
    ContainerRun env cfg st1 = (.ok id, st1)
    ∧ (∀ i, IsContainerRunning env st cfg.Name = some i → id = i ∧ st1 = st)
    ∧ ((∀ c ∈ st.containers, goTrimSlashes c.name ≠ cfg.Name) →
        countByName st1 cfg.Name = 1 ∧
        st1.containers.length = st.containers.length + 1) := by
  cases hrc : IsContainerRunning env st cfg.Name with
  | some i =>
    simp only [ContainerRun, hrc, Prod.mk.injEq, GoRes.ok.injEq] at h
    obtain ⟨hid, hst⟩ := h
    subst hid
    subst hst
    refine ⟨?_, ?_, ?_⟩
    · simp only [ContainerRun, hrc]
    · intro j hj
      exact ⟨Option.some.inj hj, rfl⟩
    · intro hfresh
      exfalso
      rw [isContainerRunning_eq env st cfg.Name hlist] at hrc
      rcases firstNameMatch_some_mem _ _ _ hrc with ⟨c, hcmem, hceq, _⟩
      rw [List.mem_filter] at hcmem
      exact hfresh c hcmem.1 hceq.symm
  | none =>
    cases hcf : env.createFails with
    | true => simp [ContainerRun, hrc, clientContainerCreate, hcf] at h
    | false =>
      cases hconf : st.containers.any (fun c => c.name == cfg.Name) with
      | true => simp [ContainerRun, hrc, clientContainerCreate, hcf, hconf] at h
      | false =>
        cases hsf : env.startFails with
        | true =>
          simp [ContainerRun, hrc, clientContainerCreate, hcf, hconf,
            clientContainerStart, hsf] at h
        | false =>
          simp only [ContainerRun, hrc, clientContainerCreate, hcf, hconf,
            clientContainerStart, hsf, Bool.false_eq_true, if_false,
            Prod.mk.injEq, GoRes.ok.injEq] at h
          obtain ⟨hid, hst⟩ := h
          subst hid
          have hrun : setRunning st.nextId true (st.containers ++
              [{ id := st.nextId, name := cfg.Name, running := false,
                 labels := cfg.Labels, image := cfg.Image,
                 command := cfg.Command }]) =
              st.containers ++
              [{ id := st.nextId, name := cfg.Name, running := true,
                 labels := cfg.Labels, image := cfg.Image,
                 command := cfg.Command }] := by
            unfold setRunning
            rw [List.map_append]
            have hl := setRunning_eq_of_not_mem st.nextId true st.containers
              (fun c hc => Nat.ne_of_lt (hwf c hc))
            unfold setRunning at hl
            rw [hl]
            simp
          rw [hrun] at hst
          subst hst
          have hfm : firstNameMatch cfg.Name
              (st.containers.filter (fun c => c.running)) = none := by
            rw [isContainerRunning_eq env st cfg.Name hlist] at hrc
            exact hrc
          refine ⟨?_, ?_, ?_⟩
          · have hrc1 : IsContainerRunning env
                { containers := st.containers ++
                    [{ id := st.nextId, name := cfg.Name, running := true,
                       labels := cfg.Labels, image := cfg.Image,
                       command := cfg.Command }],
                  nextId := st.nextId + 1,
                  events := st.events ++ [DEvent.created st.nextId]
                    ++ [DEvent.started st.nextId] } cfg.Name = some st.nextId := by
              rw [isContainerRunning_eq _ _ _ hlist]
              simp only [List.filter_append]
              rw [firstNameMatch_append_none _ _ _ (by simpa using hfm)]
              simp [firstNameMatch, hname]
            simp only [ContainerRun, hrc1]
          · intro j hj
            exact Option.noConfusion hj
          · intro hfresh
            have hnone : ∀ c ∈ st.containers, (c.name == cfg.Name) = false := by
              intro c hc
              cases hv : c.name == cfg.Name with
              | false => rfl
              | true =>
                exfalso
                have hall : st.containers.any (fun c => c.name == cfg.Name) = true :=
                  List.any_eq_true.mpr ⟨c, hc, hv⟩
                rw [hconf] at hall
                simp at hall
            constructor
            · unfold countByName
              simp only [List.filter_append]
              rw [List.filter_eq_nil_iff.mpr (fun c hc => by simp [hnone c hc])]
              simp
            · simp
/-- Witness for C1 at the one-shot CLI specification against an empty daemon:
the second run returns the identifier of the first and changes nothing. -/
theorem claim_C1_run_idempotent_witness :
    ContainerRun quietEnv cliCfg cliRunState = (.ok 0, cliRunState)
    ∧ countByName cliRunState cliCfg.Name = 1
    ∧ cliRunState.containers.length = emptyState.containers.length + 1 := by
  have h := claim_C1_run_idempotent quietEnv cliCfg emptyState cliRunState 0
    rfl (by decide) (by intro c hc; simp [emptyState] at hc) (by decide)
  refine ⟨h.1, ?_, ?_⟩
  · exact (h.2.2 (by intro c hc; simp [emptyState] at hc)).1
  · exact (h.2.2 (by intro c hc; simp [emptyState] at hc)).2

theorem containerRun_fresh_shape (env : DaemonEnv) (cfg : ContainerConfig)
    (st st1 : DockerState) (id : Nat)
    (hlist : env.listFails = false)
    (hwf : WFState st)
    (hfresh : ∀ c ∈ st.containers, goTrimSlashes c.name ≠ cfg.Name)
    (h : ContainerRun env cfg st = (.ok id, st1)) :
    id = st.nextId ∧
    st1 = { containers := st.containers ++
              [{ id := st.nextId, name := cfg.Name, running := true,
                 labels := cfg.Labels, image := cfg.Image,
                 command := cfg.Command }],
            nextId := st.nextId + 1,
            events := st.events ++ [.created st.nextId]
              ++ [.started st.nextId] } := by
  cases hrc : IsContainerRunning env st cfg.Name with
  | some i =>
    exfalso
    rw [isContainerRunning_eq env st cfg.Name hlist] at hrc
    rcases firstNameMatch_some_mem _ _ _ hrc with ⟨c, hcmem, hceq, _⟩
    rw [List.mem_filter] at hcmem
    exact hfresh c hcmem.1 hceq.symm
  | none =>
    cases hcf : env.createFails with
    | true => simp [ContainerRun, hrc, clientContainerCreate, hcf] at h
    | false =>
      cases hconf : st.containers.any (fun c => c.name == cfg.Name) with
      | true => simp [ContainerRun, hrc, clientContainerCreate, hcf, hconf] at h
      | false =>
        cases hsf : env.startFails with
        | true =>
          simp [ContainerRun, hrc, clientContainerCreate, hcf, hconf,
            clientContainerStart, hsf] at h
        | false =>
          simp only [ContainerRun, hrc, clientContainerCreate, hcf, hconf,
            clientContainerStart, hsf, Bool.false_eq_true, if_false,
            Prod.mk.injEq, GoRes.ok.injEq] at h
          obtain ⟨hid, hst⟩ := h
          have hrun : setRunning st.nextId true (st.containers ++
              [{ id := st.nextId, name := cfg.Name, running := false,
                 labels := cfg.Labels, image := cfg.Image,
                 command := cfg.Command }]) =
              st.containers ++
              [{ id := st.nextId, name := cfg.Name, running := true,
                 labels := cfg.Labels, image := cfg.Image,
                 command := cfg.Command }] := by
            unfold setRunning
            rw [List.map_append]
            have hl := setRunning_eq_of_not_mem st.nextId true st.containers
              (fun c hc => Nat.ne_of_lt (hwf c hc))
            unfold setRunning at hl
            rw [hl]
            simp
          rw [hrun] at hst
          exact ⟨hid.symm, hst.symm⟩

/-- C2 (amended): when run and wait succeed, the container is removed
regardless of the exit status the command produced, leaving zero containers
of that name when the removal succeeds; when the removal fails, the failure
is printed to the console AND returned as the error of the call (overriding
the nil error of run and wait), and the container remains. -/
theorem claim_C2_run_and_clean (env : DaemonEnv) (cfg : ContainerConfig)
    (st st1 : DockerState) (id : Nat)
    (hlist : env.listFails = false)
    (hname : goTrimSlashes cfg.Name = cfg.Name)
    (hwf : WFState st)
    (hfresh : ∀ c ∈ st.containers, goTrimSlashes c.name ≠ cfg.Name)
    (hrun : ContainerRun env cfg st = (.ok id, st1))
    (hwait : env.waitFails = false) :
    (env.removeFails = false →
      ∃ stF, ContainerRunAndClean env cfg st =
        ((env.waitResult id, logBodyOrEmpty env id, none), stF)
        ∧ countByName stF cfg.Name = 0)
    ∧ (env.removeFails = true →
      ∃ stF, ContainerRunAndClean env cfg st =
        ((env.waitResult id, logBodyOrEmpty env id, some .removeErr), stF)
        ∧ countByName stF cfg.Name = 1
        ∧ ∃ evs, stF.events = evs ++ [.printedRemoveFailure id]) := by
  obtain ⟨hid, hst1⟩ := containerRun_fresh_shape env cfg st st1 id hlist hwf hfresh hrun
  subst hid
  have hexact : ∀ c ∈ st.containers, (c.name == cfg.Name) = false := by
    intro c hc
    cases hv : c.name == cfg.Name with
    | false => rfl
    | true =>
      exfalso
      have he : c.name = cfg.Name := by simpa using hv
      exact hfresh c hc (by rw [he, hname])
  have hsetf : setRunning st.nextId false st1.containers =
      st.containers ++
        [{ id := st.nextId, name := cfg.Name, running := false,
           labels := cfg.Labels, image := cfg.Image, command := cfg.Command }] := by
    rw [hst1]
    unfold setRunning
    rw [List.map_append]
    have hl := setRunning_eq_of_not_mem st.nextId false st.containers
      (fun c hc => Nat.ne_of_lt (hwf c hc))
    unfold setRunning at hl
    rw [hl]
    simp
  have hcount0 : (st.containers.filter (fun c => c.name == cfg.Name)) = [] :=
    List.filter_eq_nil_iff.mpr (fun c hc => by simp [hexact c hc])
  constructor
  · intro hrem
    have hcalc : ContainerRunAndClean env cfg st =
        ((env.waitResult st.nextId, logBodyOrEmpty env st.nextId, none),
         { containers := (setRunning st.nextId false st1.containers).filter
             (fun c => !(c.id == st.nextId)),
           nextId := st1.nextId,
           events := st1.events ++ [.waited st.nextId] ++ [.removed st.nextId] }) := by
      unfold ContainerRunAndClean
      rw [hrun]
      unfold ContainerWait
      simp only [hwait, Bool.false_eq_true, if_false]
      unfold clientContainerRemove
      simp only [hrem, Bool.false_eq_true, if_false]
    refine ⟨_, hcalc, ?_⟩
    unfold countByName
    simp only [hsetf]
    have hnil : List.filter (fun c => c.name == cfg.Name)
        (List.filter (fun c => !(c.id == st.nextId))
          (st.containers ++
            [{ id := st.nextId, name := cfg.Name, running := false,
               labels := cfg.Labels, image := cfg.Image,
               command := cfg.Command }])) = [] := by
      apply List.filter_eq_nil_iff.mpr
      intro c hc
      rw [List.mem_filter] at hc
      rcases List.mem_append.mp hc.1 with h1 | h1
      · simp [hexact c h1]
      · exfalso
        simp only [List.mem_singleton] at h1
        rw [h1] at hc
        simp at hc
    simp [hnil]
    intro a ha hn
    exact absurd hn (by simpa using hexact a ha)
  · intro hrem
    have hcalc : ContainerRunAndClean env cfg st =
        ((env.waitResult st.nextId, logBodyOrEmpty env st.nextId, some .removeErr),
         { containers := setRunning st.nextId false st1.containers,
           nextId := st1.nextId,
           events := st1.events ++ [.waited st.nextId]
             ++ [.printedRemoveFailure st.nextId] }) := by
      unfold ContainerRunAndClean
      rw [hrun]
      unfold ContainerWait
      simp only [hwait, Bool.false_eq_true, if_false]
      unfold clientContainerRemove
      simp only [hrem, if_true]
    refine ⟨_, hcalc, ?_, ⟨st1.events ++ [.waited st.nextId], by simp⟩⟩
    unfold countByName
    simp only [hsetf, List.filter_append, hcount0]
    simp

/-- C2 counterexample: at a concrete one-shot run whose removal fails, the
call returns the removal error rather than the nil error of run and wait, so
the removal failure is not only logged. -/
theorem claim_C2_counterexample :
    (ContainerRunAndClean removeFailEnv cliCfg emptyState).1 =
      (0, "log output", some DockerErr.removeErr)
    ∧ ¬((ContainerRunAndClean removeFailEnv cliCfg emptyState).1.2.2 = none)
    ∧ countByName (ContainerRunAndClean removeFailEnv cliCfg emptyState).2
        cliCfg.Name = 1 := by
  refine ⟨by decide, by decide, by decide⟩

/-- Witness for C2 at the one-shot CLI specification: a clean removal leaves
no container of the name; a failed removal returns the removal error, leaves
the container, and appends the printed-failure event. -/
theorem claim_C2_run_and_clean_witness :
    (∃ stF, ContainerRunAndClean quietEnv cliCfg emptyState =
        ((quietEnv.waitResult 0, logBodyOrEmpty quietEnv 0, none), stF)
        ∧ countByName stF cliCfg.Name = 0)
    ∧ (∃ stF, ContainerRunAndClean removeFailEnv cliCfg emptyState =
        ((removeFailEnv.waitResult 0, logBodyOrEmpty removeFailEnv 0,
          some .removeErr), stF)
        ∧ countByName stF cliCfg.Name = 1
        ∧ ∃ evs, stF.events = evs ++ [.printedRemoveFailure 0]) := by
  constructor
  · exact (claim_C2_run_and_clean quietEnv cliCfg emptyState cliRunState 0
      rfl (by decide) (by intro c hc; simp [emptyState] at hc)
      (by intro c hc; simp [emptyState] at hc) (by decide) rfl).1 rfl
  · exact (claim_C2_run_and_clean removeFailEnv cliCfg emptyState cliRunState 0
      rfl (by decide) (by intro c hc; simp [emptyState] at hc)
      (by intro c hc; simp [emptyState] at hc) (by decide) rfl).2 rfl

/-- C4 (amended): daemon-call failures in the adapter propagate to the
caller, with these exceptions and one inversion: IsContainerRunning swallows
a listing failure and reports not running; the log-fetch failure inside
run-and-clean is discarded (the call still succeeds with an empty body);
exec against a non-running target is a benign no-op; and, contrary to the
spec, a container-removal failure after a completed run is both printed and
returned as the error of the call. -/
theorem claim_C4_error_propagation :
    (∀ (env : DaemonEnv) (st : DockerState) (n : String),
      env.listFails = true → IsContainerRunning env st n = none)
    ∧ (∀ (env : DaemonEnv) (cfg : ContainerConfig) (st st1 : DockerState)
        (id : Nat), env.waitFails = false → env.logsFails = true →
        env.removeFails = false →
        ContainerRun env cfg st = (.ok id, st1) →
        (ContainerRunAndClean env cfg st).1 = (env.waitResult id, "", none))
    ∧ (∀ (env : DaemonEnv) (cfg : ContainerConfig) (st st1 : DockerState)
        (id : Nat), env.waitFails = false → env.removeFails = true →
        ContainerRun env cfg st = (.ok id, st1) →
        (ContainerRunAndClean env cfg st).1 =
          (env.waitResult id, logBodyOrEmpty env id, some .removeErr)
        ∧ (ContainerRunAndClean env cfg st).2.events =
            (st1.events ++ [.waited id]) ++ [.printedRemoveFailure id])
    ∧ (∀ (env : DaemonEnv) (cfg : ContainerConfig) (st : DockerState),
        env.createFails = true →
        IsContainerRunning env st cfg.Name = none →
        (ContainerRun env cfg st).1 = .err .createErr)
    ∧ (∀ (env : DaemonEnv) (cfg : ContainerConfig) (st : DockerState),
        env.createFails = false → env.startFails = true →
        IsContainerRunning env st cfg.Name = none →
        (st.containers.any (fun c => c.name == cfg.Name)) = false →
        (ContainerRun env cfg st).1 = .err .startErr)
    ∧ (∀ (env : DaemonEnv) (cfg : ContainerConfig) (st st1 : DockerState)
        (id : Nat), env.waitFails = true →
        ContainerRun env cfg st = (.ok id, st1) →
        (ContainerRunAndClean env cfg st).1 = (0, "", some .waitErr))
    ∧ (∀ (env : DaemonEnv) (st : DockerState) (n : String) (cmd : List String)
        (id : Nat), env.execCreateFails = true →
        IsContainerRunning env st n = some id →
        (ContainerExec env n cmd st).1 = .err .execCreateErr)
    ∧ (∀ (env : DaemonEnv) (st : DockerState) (n : String) (cmd : List String),
        IsContainerRunning env st n = none →
        ContainerExec env n cmd st =
          (.ok { StdOut := "", StdErr := "", ExitCode := 0 }, st)) := by
  refine ⟨?_, ?_, ?_, ?_, ?_, ?_, ?_, ?_⟩
  · intro env st n hl
    unfold IsContainerRunning clientContainerList
    simp [hl]
  · intro env cfg st st1 id hw hlog hrem hrun
    unfold ContainerRunAndClean
    rw [hrun]
    unfold ContainerWait
    simp only [hw, Bool.false_eq_true, if_false]
    unfold clientContainerRemove
    simp only [hrem, Bool.false_eq_true, if_false]
    unfold logBodyOrEmpty ContainerLog
    simp [hlog]
  · intro env cfg st st1 id hw hrem hrun
    unfold ContainerRunAndClean
    rw [hrun]
    unfold ContainerWait
    simp only [hw, Bool.false_eq_true, if_false]
    unfold clientContainerRemove
    simp only [hrem, if_true]
    exact ⟨by trivial, by trivial⟩
  · intro env cfg st hc hrc
    unfold ContainerRun
    rw [hrc]
    unfold clientContainerCreate
    simp [hc]
  · intro env cfg st hc hs hrc hconf
    unfold ContainerRun
    rw [hrc]
    unfold clientContainerCreate
    simp only [hc, hconf, Bool.false_eq_true, if_false]
    unfold clientContainerStart
    simp [hs]
  · intro env cfg st st1 id hw hrun
    unfold ContainerRunAndClean
    rw [hrun]
    unfold ContainerWait
    simp [hw]
  · intro env st n cmd id hx hrc
    unfold ContainerExec
    rw [hrc]
    simp [hx]
  · intro env st n cmd hrc
    unfold ContainerExec
    rw [hrc]

/-- C4 counterexample: a concrete run-and-clean in which the log-fetch daemon
call fails still returns success with an empty body and no error, although a
log-fetch failure is neither a removal-after-run nor an exec against a
non-running container. -/
theorem claim_C4_counterexample :
    logFailEnv.logsFails = true
    ∧ (ContainerRunAndClean logFailEnv cliCfg emptyState).1 = (0, "", none) := by
  refine ⟨by decide, by decide⟩

/-- Witness for C4 instantiating every conjunct at concrete inputs. -/
theorem claim_C4_error_propagation_witness :
    IsContainerRunning { quietEnv with listFails := true } demoState
      "kana_demo_wordpress" = none
    ∧ (ContainerRunAndClean logFailEnv cliCfg emptyState).1 =
        (logFailEnv.waitResult 0, "", none)
    ∧ (ContainerRunAndClean removeFailEnv cliCfg emptyState).1 =
        (removeFailEnv.waitResult 0, logBodyOrEmpty removeFailEnv 0,
          some .removeErr)
    ∧ (ContainerRun { quietEnv with createFails := true } cliCfg emptyState).1 =
        .err .createErr
    ∧ (ContainerRun { quietEnv with startFails := true } cliCfg emptyState).1 =
        .err .startErr
    ∧ (ContainerRunAndClean { quietEnv with waitFails := true } cliCfg
        emptyState).1 = (0, "", some .waitErr)
    ∧ (ContainerExec { quietEnv with execCreateFails := true }
        "kana_demo_wordpress" ["ls"] demoState).1 = .err .execCreateErr
    ∧ ContainerExec quietEnv "kana_absent_wordpress" ["ls"] demoState =
        (.ok { StdOut := "", StdErr := "", ExitCode := 0 }, demoState) := by
  refine ⟨?_, ?_, ?_, ?_, ?_, ?_, ?_, ?_⟩
  · exact claim_C4_error_propagation.1 _ demoState "kana_demo_wordpress" rfl
  · exact claim_C4_error_propagation.2.1 logFailEnv cliCfg emptyState
      cliRunState 0 rfl rfl rfl (by decide)
  · exact (claim_C4_error_propagation.2.2.1 removeFailEnv cliCfg emptyState
      cliRunState 0 rfl rfl (by decide)).1
  · exact claim_C4_error_propagation.2.2.2.1 _ cliCfg emptyState rfl (by decide)
  · exact claim_C4_error_propagation.2.2.2.2.1 _ cliCfg emptyState rfl rfl
      (by decide) (by decide)
  · exact claim_C4_error_propagation.2.2.2.2.2.1 _ cliCfg emptyState
      cliRunState 0 rfl (by decide)
  · exact claim_C4_error_propagation.2.2.2.2.2.2.1 _ demoState
      "kana_demo_wordpress" ["ls"] 7 rfl (by decide)
  · exact claim_C4_error_propagation.2.2.2.2.2.2.2 quietEnv demoState
      "kana_absent_wordpress" ["ls"] (by decide)

theorem verifyLoop_client (poll : Nat → HttpResp) (client : TLSClientConfig) :
    ∀ fuel n tries g s,
      (verifyLoop poll client fuel n tries g s).client = some client := by
  intro fuel
  induction fuel with
  | zero => intro n tries g s; rfl
  | succ f ih =>
    intro n tries g s
    unfold verifyLoop
    cases poll n with
    | transportErr => rfl
    | status code =>
      cases h200 : code == 200 with
      | true => simp [h200]
      | false =>
        cases ht : tries == 30 with
        | true => simp [h200, ht]
        | false => simp [h200, ht, ih]

theorem verifyLoop_all_non200 (poll : Nat → HttpResp) (client : TLSClientConfig)
    (hpoll : ∀ m, ∃ c, poll m = .status c ∧ c ≠ 200) :
    ∀ fuel tries, tries ≤ 30 → 31 - tries ≤ fuel → ∀ n g s,
      verifyLoop poll client fuel n tries g s =
        { ok := false, err := some .timeout, gets := g + (31 - tries),
          sleeps := s + (30 - tries), client := some client } := by
  intro fuel
  induction fuel with
  | zero =>
    intro tries h1 h2 n g s
    exact absurd h2 (by omega)
  | succ f ih =>
    intro tries h1 h2 n g s
    unfold verifyLoop
    obtain ⟨c, hc, hne⟩ := hpoll n
    simp only [hc]
    have h200 : (c == 200) = false := by simpa using hne
    rw [h200]
    simp only [Bool.false_eq_true, if_false]
    by_cases ht : tries = 30
    · subst ht
      norm_num
    · have ht2 : (tries == 30) = false := by simpa using ht
      rw [ht2]
      simp only [Bool.false_eq_true, if_false]
      rw [ih (tries + 1) (by omega) (by omega) (n + 1) (g + 1) (s + 1)]
      rw [show g + 1 + (31 - (tries + 1)) = g + (31 - tries) by omega,
          show s + 1 + (30 - (tries + 1)) = s + (30 - tries) by omega]

/-- C3 (amended): when the certificate reads and every poll of the secure URL
returns a non-200 status without transport error, verification fails with the
timeout error after exactly 32 HTTP requests (the initial request plus 31
retry-loop requests), having slept one second after each of the first 30
unsuccessful loop requests (30 sleeps; no sleep separates the first two
requests). -/
theorem claim_C3_verify_timeout (cert : String) (poll : Nat → HttpResp)
    (hpoll : ∀ m, ∃ c, poll m = .status c ∧ c ≠ 200) :
    VerifySiteModel (some cert) poll =
      { ok := false, err := some .timeout, gets := 32, sleeps := 30,
        client := some { insecureSkipVerify := true, rootCAs := none } } := by
  unfold VerifySiteModel
  obtain ⟨c, hc, hne⟩ := hpoll 0
  simp only [hc]
  have h200 : (c != 200) = true := by simpa using hne
  rw [h200]
  simp only [if_true]
  rw [verifyLoop_all_non200 poll _ hpoll 31 0 (by omega) (by omega) 1 1 0]

/-- C3 counterexample: against a poll that always answers 503, verification
times out after 32 requests, not after the 30 the claim states. -/
theorem claim_C3_counterexample :
    (VerifySiteModel (some "pem") (fun _ => .status 503)).err =
      some VerifyErrorK.timeout
    ∧ (VerifySiteModel (some "pem") (fun _ => .status 503)).gets = 32
    ∧ (VerifySiteModel (some "pem") (fun _ => .status 503)).gets ≠ 30 := by
  refine ⟨by decide, by decide, by decide⟩

/-- Witness for C3 at the constant 503 poll. -/
theorem claim_C3_verify_timeout_witness :
    VerifySiteModel (some "pem") (fun _ => .status 503) =
      { ok := false, err := some .timeout, gets := 32, sleeps := 30,
        client := some { insecureSkipVerify := true, rootCAs := none } } :=
  claim_C3_verify_timeout "pem" (fun _ => .status 503)
    (fun _ => ⟨503, rfl, by decide⟩)

/-- C9: when the root certificate cannot be read, VerifySite returns failure
with the certificate error before any HTTP request is issued and before any
client is built; and whenever the certificate does read, the TLS client that
is built disables peer verification and never attaches the certificate pool
that was just loaded. -/
theorem claim_C9_verify_cert_failure (poll : Nat → HttpResp) :
    VerifySiteModel none poll =
      { ok := false, err := some .certRead, gets := 0, sleeps := 0,
        client := none }
    ∧ ∀ pem : String, (VerifySiteModel (some pem) poll).client =
        some { insecureSkipVerify := true, rootCAs := none } := by
  constructor
  · rfl
  · intro pem
    unfold VerifySiteModel
    cases poll 0 with
    | transportErr => rfl
    | status code =>
      cases h : code != 200 with
      | true =>
        simp only [h, if_true]
        exact verifyLoop_client poll _ 31 1 0 1 0
      | false => simp [h]

/-- C5 counterexample: a site whose site-level configuration pins php 8.0
while the dynamic configuration still carries 7.4 gets an app container on
php 8.0 but a one-shot CLI container on cli-php 7.4, so the CLI image is not
pinned to the PHP version of the app container. -/
theorem claim_C5_counterexample :
    (wordPressContainerConfig demoSite []).Image = "wordpress:php8.0"
    ∧ (wpCliContainerConfig demoSite [] []).Image = "wordpress:cli-php7.4"
    ∧ (wpCliContainerConfig demoSite [] []).Image ≠ "wordpress:cli-php8.0" := by
  refine ⟨by decide, by decide, by decide⟩

/-- C5 (amended): the one-shot CLI image is the command-line variant pinned
to the php value of the dynamic configuration layer; it matches the PHP
version of the app container exactly when the dynamic and site configuration
layers agree on php. -/
theorem claim_C5_cli_image (s : SiteModel) (command : List String)
    (vols appVols : List Mount) :
    (wpCliContainerConfig s command vols).Image =
      "wordpress:cli-php" ++ s.phpDynamicConfig
    ∧ (s.phpDynamicConfig = s.phpSiteConfig →
        (wordPressContainerConfig s appVols).Image =
          "wordpress:php" ++ s.phpSiteConfig
        ∧ (wpCliContainerConfig s command vols).Image =
          "wordpress:cli-php" ++ s.phpSiteConfig) := by
  refine ⟨rfl, ?_⟩
  intro h
  exact ⟨rfl, by simp [wpCliContainerConfig, h]⟩

/-- Witness for C5 at a site whose two configuration layers agree on php. -/
theorem claim_C5_cli_image_witness :
    (wordPressContainerConfig demoSiteAgreeing []).Image =
      "wordpress:php" ++ demoSiteAgreeing.phpSiteConfig
    ∧ (wpCliContainerConfig demoSiteAgreeing ["plugin"] []).Image =
      "wordpress:cli-php" ++ demoSiteAgreeing.phpSiteConfig :=
  (claim_C5_cli_image demoSiteAgreeing ["plugin"] [] []).2 rfl

theorem containerExec_success (env : DaemonEnv) (st : DockerState)
    (name : String) (cmd : List String) (id : Nat)
    (hlist : env.listFails = false) (h1 : env.execCreateFails = false)
    (h2 : env.execAttachFails = false) (h3 : env.copyFails = false)
    (h4 : env.execInspectFails = false)
    (hfind : firstNameMatch name
      (st.containers.filter (fun c => c.running)) = some id) :
    ContainerExec env name cmd st =
      (.ok (env.execOutput id (["sh", "-c"] ++ cmd)),
       { st with events := st.events ++ [.execCreated id (["sh", "-c"] ++ cmd)] }) := by
  unfold ContainerExec
  rw [isContainerRunning_eq env st name hlist, hfind]
  simp [h1, h2, h3, h4]

theorem runCli_noRestart (env : DaemonEnv) (s : SiteModel) (command : String)
    (st : DockerState) (id : Nat)
    (hlist : env.listFails = false) (h1 : env.execCreateFails = false)
    (h2 : env.execAttachFails = false) (h3 : env.copyFails = false)
    (h4 : env.execInspectFails = false)
    (hfind : firstNameMatch ("kana_" ++ s.StaticConfig.SiteName ++ "_wordpress")
      (st.containers.filter (fun c => c.running)) = some id) :
    runCli env s command false st =
      ((env.execOutput id ["sh", "-c", command], none),
       { st with events := st.events ++ [.execCreated id ["sh", "-c", command]] }) := by
  simp only [runCli]
  rw [containerExec_success env st _ [command] id hlist h1 h2 h3 h4 hfind]
  simp

theorem runCli_restart (env : DaemonEnv) (s : SiteModel) (command : String)
    (st : DockerState) (id : Nat)
    (hlist : env.listFails = false) (h1 : env.execCreateFails = false)
    (h2 : env.execAttachFails = false) (h3 : env.copyFails = false)
    (h4 : env.execInspectFails = false) (h5 : env.stopFails = false)
    (h6 : env.startFails = false)
    (hfind : firstNameMatch ("kana_" ++ s.StaticConfig.SiteName ++ "_wordpress")
      (st.containers.filter (fun c => c.running)) = some id) :
    runCli env s command true st =
      ((env.execOutput id ["sh", "-c", command], none),
       { st with
           containers := setRunning id true (setRunning id false st.containers),
           events := st.events ++ [.execCreated id ["sh", "-c", command],
             .stopped id, .started id] }) := by
  simp only [runCli]
  rw [containerExec_success env st _ [command] id hlist h1 h2 h3 h4 hfind]
  have hrc1 : IsContainerRunning env
      { st with events := st.events ++
          [DEvent.execCreated id ["sh", "-c", command]] }
      ("kana_" ++ s.StaticConfig.SiteName ++ "_wordpress") = some id := by
    rw [isContainerRunning_eq _ _ _ hlist]
    exact hfind
  simp [ContainerRestart, hrc1, clientContainerStop, clientContainerStart,
    h5, h6, List.append_assoc]

theorem installXdebugLoop_tail (env : DaemonEnv) (s : SiteModel) (id : Nat)
    (hlist : env.listFails = false) (h1 : env.execCreateFails = false)
    (h2 : env.execAttachFails = false) (h3 : env.copyFails = false)
    (h4 : env.execInspectFails = false) (h5 : env.stopFails = false)
    (h6 : env.startFails = false) :
    ∀ (cmds : List String) (st : DockerState) (i : Nat),
      cmds ≠ [] → (i == 0) = false →
      firstNameMatch ("kana_" ++ s.StaticConfig.SiteName ++ "_wordpress")
        (st.containers.filter (fun c => c.running)) = some id →
      installXdebugLoop env s cmds i st =
        ((true, none),
         { st with
             containers := setRunning id true (setRunning id false st.containers),
             events := st.events ++ execEvents id cmds
               ++ [.stopped id, .started id] }) := by
  intro cmds
  induction cmds with
  | nil => intro st i hne; exact absurd rfl hne
  | cons c rest ih =>
    intro st i hne hi hfind
    cases rest with
    | nil =>
      simp only [installXdebugLoop, List.isEmpty_cons, List.isEmpty_nil]
      rw [runCli_restart env s c st id hlist h1 h2 h3 h4 h5 h6 hfind]
      simp [hi, installXdebugLoop, execEvents, List.append_assoc]
    | cons d rest2 =>
      have hstep : installXdebugLoop env s (c :: d :: rest2) i st =
          match runCli env s c false st with
          | ((_, some e), st1) => ((false, some e), st1)
          | ((output, none), st1) =>
            if i == 0 && goContains output.StdOut "xdebug" then
              ((false, none), st1)
            else installXdebugLoop env s (d :: rest2) (i + 1) st1 := rfl
      rw [hstep]
      rw [runCli_noRestart env s c st id hlist h1 h2 h3 h4 hfind]
      simp only [hi, Bool.false_and, Bool.false_eq_true, if_false]
      rw [ih
        { st with events := st.events ++ [.execCreated id ["sh", "-c", c]] }
        (i + 1) (by simp) (by simp) hfind]
      simp [execEvents, List.append_assoc]

theorem installXdebugLoop_first_stop (env : DaemonEnv) (s : SiteModel)
    (c : String) (rest : List String) (st : DockerState) (id : Nat)
    (hlist : env.listFails = false) (h1 : env.execCreateFails = false)
    (h2 : env.execAttachFails = false) (h3 : env.copyFails = false)
    (h4 : env.execInspectFails = false)
    (hrest : rest.isEmpty = false)
    (hfind : firstNameMatch ("kana_" ++ s.StaticConfig.SiteName ++ "_wordpress")
      (st.containers.filter (fun c => c.running)) = some id)
    (hyes : goContains (env.execOutput id ["sh", "-c", c]).StdOut "xdebug" = true) :
    installXdebugLoop env s (c :: rest) 0 st =
      ((false, none),
       { st with events := st.events ++ [.execCreated id ["sh", "-c", c]] }) := by
  simp only [installXdebugLoop, hrest]
  rw [runCli_noRestart env s c st id hlist h1 h2 h3 h4 hfind]
  simp [hyes]

theorem installXdebugLoop_first_continue (env : DaemonEnv) (s : SiteModel)
    (c : String) (rest : List String) (st : DockerState) (id : Nat)
    (hlist : env.listFails = false) (h1 : env.execCreateFails = false)
    (h2 : env.execAttachFails = false) (h3 : env.copyFails = false)
    (h4 : env.execInspectFails = false)
    (hrest : rest.isEmpty = false)
    (hfind : firstNameMatch ("kana_" ++ s.StaticConfig.SiteName ++ "_wordpress")
      (st.containers.filter (fun c => c.running)) = some id)
    (hno : goContains (env.execOutput id ["sh", "-c", c]).StdOut "xdebug" = false) :
    installXdebugLoop env s (c :: rest) 0 st =
      installXdebugLoop env s rest 1
        { st with events := st.events ++ [.execCreated id ["sh", "-c", c]] } := by
  simp only [installXdebugLoop, hrest]
  rw [runCli_noRestart env s c st id hlist h1 h2 h3 h4 hfind]
  simp [hno]
/-- C6 (amended): InstallXdebug is a no-op returning (false, no error) when
the xdebug flag is unset; otherwise it runs the fixed ordered sequence of
eight in-container shell commands (check-if-installed, install, enable, and
five ini-append lines), restarting the app container (stop then start) only
after the final command; and it stops after the first command, returning
(false, no error), when that check already reports the extension present. -/
theorem claim_C6_install_xdebug :
    (∀ (env : DaemonEnv) (s : SiteModel) (st : DockerState),
      s.xdebugFlag = false → InstallXdebug env s st = ((false, none), st))
    ∧ (∀ (env : DaemonEnv) (s : SiteModel) (st : DockerState) (id : Nat),
        s.xdebugFlag = true → env.listFails = false →
        env.execCreateFails = false → env.execAttachFails = false →
        env.copyFails = false → env.execInspectFails = false →
        firstNameMatch ("kana_" ++ s.StaticConfig.SiteName ++ "_wordpress")
          (st.containers.filter (fun c => c.running)) = some id →
        goContains (env.execOutput id
          ["sh", "-c", "pecl list | grep xdebug"]).StdOut "xdebug" = true →
        InstallXdebug env s st = ((false, none),
          { st with events := st.events ++
              [.execCreated id ["sh", "-c", "pecl list | grep xdebug"]] }))
    ∧ (∀ (env : DaemonEnv) (s : SiteModel) (st : DockerState) (id : Nat),
        s.xdebugFlag = true → env.listFails = false →
        env.execCreateFails = false → env.execAttachFails = false →
        env.copyFails = false → env.execInspectFails = false →
        env.stopFails = false → env.startFails = false →
        firstNameMatch ("kana_" ++ s.StaticConfig.SiteName ++ "_wordpress")
          (st.containers.filter (fun c => c.running)) = some id →
        goContains (env.execOutput id
          ["sh", "-c", "pecl list | grep xdebug"]).StdOut "xdebug" = false →
        InstallXdebug env s st = ((true, none),
          { st with
              containers := setRunning id true (setRunning id false st.containers),
              events := st.events ++ execEvents id xdebugCommands
                ++ [.stopped id, .started id] })) := by
  have hx1 : xdebugCommands = "pecl list | grep xdebug" :: xdebugCommands.tail :=
    rfl
  refine ⟨?_, ?_, ?_⟩
  · intro env s st hx
    unfold InstallXdebug
    simp [hx]
  · intro env s st id hx hlist h1 h2 h3 h4 hfind hyes
    unfold InstallXdebug
    simp only [hx, Bool.not_true, Bool.false_eq_true, if_false]
    rw [hx1, installXdebugLoop_first_stop env s "pecl list | grep xdebug"
      xdebugCommands.tail st id hlist h1 h2 h3 h4 rfl hfind hyes]
  · intro env s st id hx hlist h1 h2 h3 h4 h5 h6 hfind hno
    unfold InstallXdebug
    simp only [hx, Bool.not_true, Bool.false_eq_true, if_false]
    rw [hx1, installXdebugLoop_first_continue env s "pecl list | grep xdebug"
      xdebugCommands.tail st id hlist h1 h2 h3 h4 rfl hfind hno]
    rw [installXdebugLoop_tail env s id hlist h1 h2 h3 h4 h5 h6
      xdebugCommands.tail
      { st with events := st.events ++
          [.execCreated id ["sh", "-c", "pecl list | grep xdebug"]] }
      1 (by decide) (by decide) hfind]
    simp [execEvents, xdebugCommands, List.append_assoc]

/-- C6 counterexample: a concrete full installation run executes eight exec
sessions, not the seven that a command list with only four ini-append lines
would produce. -/
theorem claim_C6_counterexample :
    countExecCreated (InstallXdebug quietEnv demoSite demoState).2.events = 8
    ∧ countExecCreated (InstallXdebug quietEnv demoSite demoState).2.events ≠ 7
    ∧ (InstallXdebug quietEnv demoSite demoState).1 = (true, none) := by
  refine ⟨by decide, by decide, by decide⟩

/-- Witness for C6 instantiating the three behaviors at the demo site. -/
theorem claim_C6_install_xdebug_witness :
    InstallXdebug quietEnv { demoSite with xdebugFlag := false } demoState =
      ((false, none), demoState)
    ∧ InstallXdebug xdebugPresentEnv demoSite demoState =
        ((false, none),
         { demoState with events := demoState.events ++
             [.execCreated 7 ["sh", "-c", "pecl list | grep xdebug"]] })
    ∧ InstallXdebug quietEnv demoSite demoState =
        ((true, none),
         { demoState with
             containers := setRunning 7 true
               (setRunning 7 false demoState.containers),
             events := demoState.events ++ execEvents 7 xdebugCommands
               ++ [.stopped 7, .started 7] }) := by
  refine ⟨?_, ?_, ?_⟩
  · exact claim_C6_install_xdebug.1 quietEnv _ demoState rfl
  · exact claim_C6_install_xdebug.2.1 xdebugPresentEnv demoSite demoState 7
      rfl rfl rfl rfl rfl rfl (by decide) (by decide)
  · exact claim_C6_install_xdebug.2.2 quietEnv demoSite demoState 7
      rfl rfl rfl rfl rfl rfl rfl rfl (by decide) (by decide)

end Kana
